import Mathlib

/-!
Shallow embedding of `src/api/http_server.rs` of the cosmo-cli repository
(an HTTP client gateway with a three-step authentication fallback), with
theorems checking the specification's claims against it.

External collaborators (the `AuthSystem` capability, the filesystem, the
reqwest transport, serde decoding, stdin credential reading) are modelled
as explicit environments handed to the embedded functions, so that each
operation becomes a pure function from its environments to a result plus
an observable trace of resolver invocations and sent requests.
-/

namespace Cosmo

/-- A bearer session, `security::AuthData`; only the `token` field is
consumed by `http_server.rs`. -/
structure AuthData where
  token : String
deriving DecidableEq, Repr

/-- Modelled from the spec: `security::AuthError` is declared outside
`src/`; the gateway treats it as opaque, so it is an opaque message. -/
structure AuthError where
  msg : String
deriving DecidableEq, Repr

/-- The `AuthSystem` capability plus the stdin credential reader, as an
environment: the outcome each external call would produce during one
`authenticate()` call. -/
structure AuthEnv where
  logged_in : Except AuthError AuthData
  refresh : Except AuthError AuthData
  login : String → String → Except AuthError AuthData
  read_username_and_password_from_stdin : String × String

/-- The three resolution steps of `HttpApiServer::authenticate`. -/
inductive AuthStep where
  | logged_in
  | refresh
  | login
deriving DecidableEq, Repr

/-- `HttpApiServer::authenticate` (http_server.rs lines 42-53): cached
session check, then refresh, then interactive login; errors of the first
two steps are discarded by the `if let Ok` pattern. The second component
records, in order, which capability calls were made. -/
def authenticate (env : AuthEnv) : Except AuthError AuthData × List AuthStep :=
  match env.logged_in with
  | .ok auth_data => (.ok auth_data, [AuthStep.logged_in])
  | .error _ =>
    match env.refresh with
    | .ok auth_data => (.ok auth_data, [AuthStep.logged_in, AuthStep.refresh])
    | .error _ =>
      let creds := env.read_username_and_password_from_stdin
      (env.login creds.1 creds.2,
        [AuthStep.logged_in, AuthStep.refresh, AuthStep.login])

/-- `get_protocol` (http_server.rs lines 80-86). -/
def get_protocol (tls : Bool) : String :=
  if tls then "https" else "http"

/-- Modelled from the spec: the crate-level `CLI_VERSION` constant lives
outside `src/`; its concrete value is irrelevant to every claim, only the
fact that the user-agent string is one fixed process-wide value. -/
def CLI_VERSION : String := "0.0.0"

/-- The `CLI_USER_AGENT` lazy static (http_server.rs lines 13-18). -/
def CLI_USER_AGENT : String := "ExeinCLI/" ++ CLI_VERSION

/-- `PROJECT_ROUTE_V1` (http_server.rs line 20). -/
def PROJECT_ROUTE_V1 : String := "/api/v1/projects"

/-- `APIKEY_ROUTE_V1` (http_server.rs line 21). -/
def APIKEY_ROUTE_V1 : String := "/api/v1/api_key"

/-- `UPDATES_ROUTE` (http_server.rs line 22). -/
def UPDATES_ROUTE : String := "/api/updates_check"

/-- The `reqwest::Method` values used by the gateway. -/
inductive Method where
  | GET
  | POST
  | DELETE
deriving DecidableEq, Repr

/-- A file part of a multipart form: `reqwest::multipart::Part::bytes(..)
.file_name(..)`. -/
structure FilePart where
  bytes : List Nat
  file_name : String
deriving DecidableEq, Repr

/-- One part of a multipart form, in insertion order: `.text(key, value)`
or `.part(key, part)`. -/
inductive FormPart where
  | text : String → String → FormPart
  | file : String → FilePart → FormPart
deriving DecidableEq, Repr

/-- A `reqwest::multipart::Form`: its parts in the order they were added. -/
structure MultipartForm where
  parts : List FormPart
deriving DecidableEq, Repr

/-- A `reqwest::RequestBuilder` as observable data: method, composed URL,
headers in insertion order, and the multipart body if one was attached. -/
structure RequestBuilder where
  method : Method
  url : String
  headers : List (String × String)
  form : Option MultipartForm
deriving DecidableEq, Repr

/-- The endpoint configuration fields of `HttpApiServer` (http_server.rs
lines 24-30); the `auth_service` field is passed separately as `AuthEnv`. -/
structure HttpApiServer where
  host : String
  port : String
  tls : Bool
deriving DecidableEq, Repr

/-- `HttpApiServer::request` (http_server.rs lines 58-65): composes the
URL from protocol, host, port and path and attaches the user-agent
header. -/
def request (s : HttpApiServer) (path : String) (method : Method) : RequestBuilder :=
  let protocol := get_protocol s.tls
  let url := protocol ++ "://" ++ s.host ++ ":" ++ s.port ++ path
  { method := method
    url := url
    headers := [("user-agent", CLI_USER_AGENT)]
    form := none }

/-- The gateway error type `ApiServerError`. The `RequestError` and
`ApiError` constructors and their string payloads appear directly in
`http_server.rs`; the enum itself is declared outside `src/`, so the two
wrapping constructors are modelled from the spec: `HttpClientError` is
the transport-level kind (network or deserialization failure, produced by
the `?` conversion from the transport error) and `AuthenticationError`
wraps the resolver error (the `?` conversion in `authenticated_request`). -/
inductive ApiServerError where
  | RequestError : String → ApiServerError
  | ApiError : String → ApiServerError
  | HttpClientError : String → ApiServerError
  | AuthenticationError : AuthError → ApiServerError
deriving DecidableEq, Repr

/-- A UUID as its hyphenated display string (the `uuid::Uuid` domain type
lives outside `src/`; only its `Display` rendering reaches the URL). -/
structure Uuid where
  val : String
deriving DecidableEq, Repr

/-- Opaque domain payload `LatestCliVersion` (defined outside `src/`). -/
structure LatestCliVersion where
  raw : String
deriving DecidableEq, Repr

/-- `ProjectIdDTO`: the decoded body of a successful create, of which the
handler returns the `id` field (the type itself is defined outside `src/`). -/
structure ProjectIdDTO where
  id : Uuid
deriving DecidableEq, Repr

/-- Opaque domain payload `Project` (defined outside `src/`). -/
structure Project where
  raw : String
deriving DecidableEq, Repr

/-- Opaque domain payload `ProjectAnalysis` (defined outside `src/`). -/
structure ProjectAnalysis where
  raw : String
deriving DecidableEq, Repr

/-- Opaque `serde_json::Value` returned by `overview`. -/
structure JsonValue where
  raw : String
deriving DecidableEq, Repr

/-- Opaque domain payload `ApiKeyData` (defined outside `src/`). -/
structure ApiKeyData where
  raw : String
deriving DecidableEq, Repr

/-- The serde decoders (`response.json::<T>()`) as an environment: serde
and the domain models are external collaborators, so each decode is an
arbitrary partial function from body text, `none` meaning decode failure. -/
structure Decoders where
  latestCliVersion : String → Option LatestCliVersion
  projectIdDTO : String → Option ProjectIdDTO
  jsonValue : String → Option JsonValue
  projectAnalysis : String → Option ProjectAnalysis
  projectList : String → Option (List Project)
  apiKeyData : String → Option ApiKeyData

/-- An HTTP response as the handlers observe it: status code and body
text. -/
structure RawResponse where
  status : Nat
  body : String
deriving DecidableEq, Repr

/-- The transport (`send().await`) as an environment: what response, or
transport error, sending a given request produces. -/
structure TransportEnv where
  respond : RequestBuilder → Except String RawResponse

/-- An observable side effect of an operation: one resolver-capability
call or one request handed to the transport. -/
inductive Event where
  | auth : AuthStep → Event
  | send : RequestBuilder → Event
deriving DecidableEq, Repr

/-- `HttpApiServer::authenticated_request` (http_server.rs lines 67-77):
resolve a session via `authenticate`, then append the bearer
authorization header to the base request; a resolver error propagates via
`?`. -/
def authenticated_request (s : HttpApiServer) (auth : AuthEnv) (path : String)
    (method : Method) : Except ApiServerError RequestBuilder × List Event :=
  match authenticate auth with
  | (.error e, steps) =>
    (.error (ApiServerError.AuthenticationError e), steps.map Event.auth)
  | (.ok auth_data, steps) =>
    let req := request s path method
    (.ok { req with
        headers := req.headers ++ [("authorization", "Bearer " ++ auth_data.token)] },
      steps.map Event.auth)

/-- `updates_check` (http_server.rs lines 90-104): unauthenticated GET of
the updates route; 200 decodes the body, anything else wraps the body
text as an `ApiError`. -/
def updates_check (s : HttpApiServer) (tr : TransportEnv) (dec : Decoders) :
    Except ApiServerError LatestCliVersion × List Event :=
  let req := request s UPDATES_ROUTE Method.GET
  match tr.respond req with
  | .error e => (.error (ApiServerError.HttpClientError e), [Event.send req])
  | .ok response =>
    if response.status = 200 then
      match dec.latestCliVersion response.body with
      | some latest_version => (.ok latest_version, [Event.send req])
      | none =>
        (.error (ApiServerError.HttpClientError "json decode failure"),
          [Event.send req])
    else
      (.error (ApiServerError.ApiError response.body), [Event.send req])

/-- The filesystem as an environment: `Path::exists`, `Path::is_dir`,
`Path::file_name` composed with `to_str` (the final path component when
present and valid UTF-8), and `read_bytes_from_file` (an `io::Result`). -/
structure FileSystem where
  path_exists : String → Bool
  is_dir : String → Bool
  file_name : String → Option String
  read_bytes_from_file : String → Except String (List Nat)

/-- The outcome of `create`: unlike every other handler it can also
panic, because it calls `.unwrap()` on the file read. -/
inductive CreateResult where
  | ok : Uuid → CreateResult
  | error : ApiServerError → CreateResult
  | panicked : CreateResult
deriving DecidableEq, Repr

/-- `create` (http_server.rs lines 106-162): reject a missing or
directory path; reject a path without a UTF-8 final component; `unwrap`
the file read (http_server.rs line 132 — a failed read panics); build the
multipart form in source order (name, type, subtype, file, then the
optional description); POST it through `authenticated_request`; classify
the response. `Path::display` of a UTF-8 path renders the path string
itself. -/
def create (s : HttpApiServer) (auth : AuthEnv) (fs : FileSystem) (tr : TransportEnv)
    (dec : Decoders) (fw_filepath fw_type fw_subtype name : String)
    (description : Option String) : CreateResult × List Event :=
  if !fs.path_exists fw_filepath || fs.is_dir fw_filepath then
    (.error (ApiServerError.RequestError ("File " ++ fw_filepath ++ " not found")), [])
  else
    match fs.file_name fw_filepath with
    | none =>
      (.error (ApiServerError.RequestError
          ("Problem with image filename: " ++ fw_filepath)), [])
    | some fw_filename =>
      match fs.read_bytes_from_file fw_filepath with
      | .error _ => (.panicked, [])
      | .ok bytes =>
        let part : FilePart := { bytes := bytes, file_name := fw_filename }
        let form : MultipartForm :=
          { parts :=
              [FormPart.text "name" name, FormPart.text "type" fw_type,
                FormPart.text "subtype" fw_subtype, FormPart.file "file" part] ++
              (match description with
                | some descr => [FormPart.text "description" descr]
                | none => []) }
        match authenticated_request s auth PROJECT_ROUTE_V1 Method.POST with
        | (.error e, evs) => (.error e, evs)
        | (.ok req0, evs) =>
          let req := { req0 with form := some form }
          match tr.respond req with
          | .error e =>
            (.error (ApiServerError.HttpClientError e), evs ++ [Event.send req])
          | .ok response =>
            if response.status = 200 then
              match dec.projectIdDTO response.body with
              | some dto => (.ok dto.id, evs ++ [Event.send req])
              | none =>
                (.error (ApiServerError.HttpClientError "json decode failure"),
                  evs ++ [Event.send req])
            else
              (.error (ApiServerError.ApiError response.body),
                evs ++ [Event.send req])

/-- `overview` (http_server.rs lines 164-182). -/
def overview (s : HttpApiServer) (auth : AuthEnv) (tr : TransportEnv)
    (dec : Decoders) (project_id : Uuid) :
    Except ApiServerError JsonValue × List Event :=
  let path := PROJECT_ROUTE_V1 ++ "/" ++ project_id.val ++ "/overview"
  match authenticated_request s auth path Method.GET with
  | (.error e, evs) => (.error e, evs)
  | (.ok req, evs) =>
    match tr.respond req with
    | .error e => (.error (ApiServerError.HttpClientError e), evs ++ [Event.send req])
    | .ok response =>
      if response.status = 200 then
        match dec.jsonValue response.body with
        | some ov => (.ok ov, evs ++ [Event.send req])
        | none =>
          (.error (ApiServerError.HttpClientError "json decode failure"),
            evs ++ [Event.send req])
      else
        (.error (ApiServerError.ApiError response.body), evs ++ [Event.send req])

/-- `analysis` (http_server.rs lines 184-204). -/
def analysis (s : HttpApiServer) (auth : AuthEnv) (tr : TransportEnv)
    (dec : Decoders) (project_id : Uuid) (an : String) :
    Except ApiServerError ProjectAnalysis × List Event :=
  let path := PROJECT_ROUTE_V1 ++ "/" ++ project_id.val ++ "/analysis/" ++ an
  match authenticated_request s auth path Method.GET with
  | (.error e, evs) => (.error e, evs)
  | (.ok req, evs) =>
    match tr.respond req with
    | .error e => (.error (ApiServerError.HttpClientError e), evs ++ [Event.send req])
    | .ok response =>
      if response.status = 200 then
        match dec.projectAnalysis response.body with
        | some res => (.ok res, evs ++ [Event.send req])
        | none =>
          (.error (ApiServerError.HttpClientError "json decode failure"),
            evs ++ [Event.send req])
      else
        (.error (ApiServerError.ApiError response.body), evs ++ [Event.send req])

/-- `delete` (http_server.rs lines 206-220): 200 yields unit, no body
decode. -/
def delete (s : HttpApiServer) (auth : AuthEnv) (tr : TransportEnv)
    (project_id : Uuid) : Except ApiServerError Unit × List Event :=
  let path := PROJECT_ROUTE_V1 ++ "/" ++ project_id.val
  match authenticated_request s auth path Method.DELETE with
  | (.error e, evs) => (.error e, evs)
  | (.ok req, evs) =>
    match tr.respond req with
    | .error e => (.error (ApiServerError.HttpClientError e), evs ++ [Event.send req])
    | .ok response =>
      if response.status = 200 then (.ok (), evs ++ [Event.send req])
      else (.error (ApiServerError.ApiError response.body), evs ++ [Event.send req])

/-- `list_projects` (http_server.rs lines 222-236). -/
def list_projects (s : HttpApiServer) (auth : AuthEnv) (tr : TransportEnv)
    (dec : Decoders) : Except ApiServerError (List Project) × List Event :=
  match authenticated_request s auth PROJECT_ROUTE_V1 Method.GET with
  | (.error e, evs) => (.error e, evs)
  | (.ok req, evs) =>
    match tr.respond req with
    | .error e => (.error (ApiServerError.HttpClientError e), evs ++ [Event.send req])
    | .ok response =>
      if response.status = 200 then
        match dec.projectList response.body with
        | some projects => (.ok projects, evs ++ [Event.send req])
        | none =>
          (.error (ApiServerError.HttpClientError "json decode failure"),
            evs ++ [Event.send req])
      else
        (.error (ApiServerError.ApiError response.body), evs ++ [Event.send req])

/-- `apikey_create` (http_server.rs lines 238-256): 200 decodes, 400
yields the fixed "API key already present!" message, anything else wraps
the body. -/
def apikey_create (s : HttpApiServer) (auth : AuthEnv) (tr : TransportEnv)
    (dec : Decoders) : Except ApiServerError ApiKeyData × List Event :=
  match authenticated_request s auth APIKEY_ROUTE_V1 Method.POST with
  | (.error e, evs) => (.error e, evs)
  | (.ok req, evs) =>
    match tr.respond req with
    | .error e => (.error (ApiServerError.HttpClientError e), evs ++ [Event.send req])
    | .ok response =>
      if response.status = 200 then
        match dec.apiKeyData response.body with
        | some apikey => (.ok apikey, evs ++ [Event.send req])
        | none =>
          (.error (ApiServerError.HttpClientError "json decode failure"),
            evs ++ [Event.send req])
      else if response.status = 400 then
        (.error (ApiServerError.ApiError "API key already present!"),
          evs ++ [Event.send req])
      else
        (.error (ApiServerError.ApiError response.body), evs ++ [Event.send req])

/-- `apikey_list` (http_server.rs lines 258-274): 200 decodes, 204 yields
the fixed "No API key found!" message, anything else wraps the body. -/
def apikey_list (s : HttpApiServer) (auth : AuthEnv) (tr : TransportEnv)
    (dec : Decoders) : Except ApiServerError ApiKeyData × List Event :=
  match authenticated_request s auth APIKEY_ROUTE_V1 Method.GET with
  | (.error e, evs) => (.error e, evs)
  | (.ok req, evs) =>
    match tr.respond req with
    | .error e => (.error (ApiServerError.HttpClientError e), evs ++ [Event.send req])
    | .ok response =>
      if response.status = 200 then
        match dec.apiKeyData response.body with
        | some apikey => (.ok apikey, evs ++ [Event.send req])
        | none =>
          (.error (ApiServerError.HttpClientError "json decode failure"),
            evs ++ [Event.send req])
      else if response.status = 204 then
        (.error (ApiServerError.ApiError "No API key found!"), evs ++ [Event.send req])
      else
        (.error (ApiServerError.ApiError response.body), evs ++ [Event.send req])

/-- `apikey_delete` (http_server.rs lines 276-289). -/
def apikey_delete (s : HttpApiServer) (auth : AuthEnv) (tr : TransportEnv) :
    Except ApiServerError Unit × List Event :=
  match authenticated_request s auth APIKEY_ROUTE_V1 Method.DELETE with
  | (.error e, evs) => (.error e, evs)
  | (.ok req, evs) =>
    match tr.respond req with
    | .error e => (.error (ApiServerError.HttpClientError e), evs ++ [Event.send req])
    | .ok response =>
      if response.status = 200 then (.ok (), evs ++ [Event.send req])
      else (.error (ApiServerError.ApiError response.body), evs ++ [Event.send req])

/-- An authentication environment whose cached-session check succeeds at
once with the given token (used to instantiate claims about the handlers
under a resolved session). -/
def okAuth (tok : String) : AuthEnv :=
  { logged_in := .ok ⟨tok⟩
    refresh := .error ⟨"unused"⟩
    login := fun _ _ => .error ⟨"unused"⟩
    read_username_and_password_from_stdin := ("", "") }

/-- A stub transport answering every request with the same status and
body. -/
def constTransport (status : Nat) (body : String) : TransportEnv :=
  { respond := fun _ => .ok { status := status, body := body } }

/-- Stub decoders that always succeed, wrapping the body text. -/
def okDecoders : Decoders :=
  { latestCliVersion := fun b => some ⟨b⟩
    projectIdDTO := fun b => some ⟨⟨b⟩⟩
    jsonValue := fun b => some ⟨b⟩
    projectAnalysis := fun b => some ⟨b⟩
    projectList := fun b => some [⟨b⟩]
    apiKeyData := fun b => some ⟨b⟩ }

/-- A filesystem stub on which every path exists, is a regular file, has
the given final component, and reads to the given bytes. -/
def plainFile (fn : String) (bytes : List Nat) : FileSystem :=
  { path_exists := fun _ => true
    is_dir := fun _ => false
    file_name := fun _ => some fn
    read_bytes_from_file := fun _ => .ok bytes }

/-- Whether a gateway result is the success case. -/
def isOkResult {α : Type} : Except ApiServerError α → Bool
  | .ok _ => true
  | .error _ => false

/-- Whether a gateway result is an API-level error (as opposed to a
transport, request or authentication error). -/
def isApiErrorResult {α : Type} : Except ApiServerError α → Bool
  | .error (.ApiError _) => true
  | _ => false

/-- `isOkResult` for the `create` outcome type. -/
def createIsOk : CreateResult → Bool
  | .ok _ => true
  | _ => false

/-- `isApiErrorResult` for the `create` outcome type. -/
def createIsApiError : CreateResult → Bool
  | .error (.ApiError _) => true
  | _ => false

/-- The request `authenticated_request` builds once a session with the
given token is resolved: the base request plus the bearer authorization
header. -/
def authedReq (s : HttpApiServer) (tok : String) (path : String) (m : Method) :
    RequestBuilder :=
  { request s path m with
      headers := (request s path m).headers ++ [("authorization", "Bearer " ++ tok)] }

/-- A sample endpoint configuration for concrete witnesses. -/
def sampleServer : HttpApiServer :=
  { host := "api.example.com", port := "443", tls := true }

/-- Under a resolved cached session, `authenticated_request` succeeds with
the bearer-augmented request after exactly one resolver step. -/
theorem authenticated_request_okAuth (s : HttpApiServer) (tok path : String)
    (m : Method) :
    authenticated_request s (okAuth tok) path m =
      (.ok (authedReq s tok path m), [Event.auth AuthStep.logged_in]) := rfl

/-- Evaluation of `updates_check` against the constant stub transport. -/
theorem updates_check_stub (s : HttpApiServer) (dec : Decoders) (st : Nat)
    (T : String) :
    updates_check s (constTransport st T) dec =
      ((if st = 200 then
          match dec.latestCliVersion T with
          | some v => .ok v
          | none => .error (ApiServerError.HttpClientError "json decode failure")
        else .error (ApiServerError.ApiError T)),
        [Event.send (request s UPDATES_ROUTE Method.GET)]) := by
  by_cases h : st = 200
  · rcases hd : dec.latestCliVersion T with _ | v <;>
      simp [updates_check, constTransport, h, hd]
  · simp [updates_check, constTransport, h]

/-- Evaluation of `create` against the plain-file filesystem stub, a
resolved session and the constant stub transport. -/
theorem create_stub (s : HttpApiServer) (dec : Decoders) (st : Nat)
    (T tok fn : String) (bytes : List Nat) (p ft fsub nm : String)
    (descr : Option String) :
    create s (okAuth tok) (plainFile fn bytes) (constTransport st T) dec
        p ft fsub nm descr =
      ((if st = 200 then
          match dec.projectIdDTO T with
          | some dto => CreateResult.ok dto.id
          | none => CreateResult.error (ApiServerError.HttpClientError "json decode failure")
        else CreateResult.error (ApiServerError.ApiError T)),
        [Event.auth AuthStep.logged_in,
          Event.send { authedReq s tok PROJECT_ROUTE_V1 Method.POST with
            form := some
              { parts :=
                  [FormPart.text "name" nm, FormPart.text "type" ft,
                    FormPart.text "subtype" fsub,
                    FormPart.file "file" { bytes := bytes, file_name := fn }] ++
                  (match descr with
                    | some d => [FormPart.text "description" d]
                    | none => []) } }]) := by
  by_cases h : st = 200
  · rcases hd : dec.projectIdDTO T with _ | dto <;>
      simp [create, plainFile, authenticated_request, authenticate, okAuth,
        authedReq, constTransport, h, hd]
  · simp [create, plainFile, authenticated_request, authenticate, okAuth,
      authedReq, constTransport, h]

/-- Evaluation of `overview` against the constant stub transport. -/
theorem overview_stub (s : HttpApiServer) (dec : Decoders) (st : Nat)
    (T tok : String) (pid : Uuid) :
    overview s (okAuth tok) (constTransport st T) dec pid =
      ((if st = 200 then
          match dec.jsonValue T with
          | some ov => .ok ov
          | none => .error (ApiServerError.HttpClientError "json decode failure")
        else .error (ApiServerError.ApiError T)),
        [Event.auth AuthStep.logged_in,
          Event.send (authedReq s tok
            (PROJECT_ROUTE_V1 ++ "/" ++ pid.val ++ "/overview") Method.GET)]) := by
  by_cases h : st = 200
  · rcases hd : dec.jsonValue T with _ | ov <;>
      simp [overview, authenticated_request, authenticate, okAuth, authedReq,
        constTransport, h, hd]
  · simp [overview, authenticated_request, authenticate, okAuth, authedReq,
      constTransport, h]

/-- Evaluation of `analysis` against the constant stub transport. -/
theorem analysis_stub (s : HttpApiServer) (dec : Decoders) (st : Nat)
    (T tok : String) (pid : Uuid) (an : String) :
    analysis s (okAuth tok) (constTransport st T) dec pid an =
      ((if st = 200 then
          match dec.projectAnalysis T with
          | some res => .ok res
          | none => .error (ApiServerError.HttpClientError "json decode failure")
        else .error (ApiServerError.ApiError T)),
        [Event.auth AuthStep.logged_in,
          Event.send (authedReq s tok
            (PROJECT_ROUTE_V1 ++ "/" ++ pid.val ++ "/analysis/" ++ an) Method.GET)]) := by
  by_cases h : st = 200
  · rcases hd : dec.projectAnalysis T with _ | res <;>
      simp [analysis, authenticated_request, authenticate, okAuth, authedReq,
        constTransport, h, hd]
  · simp [analysis, authenticated_request, authenticate, okAuth, authedReq,
      constTransport, h]

/-- Evaluation of `delete` against the constant stub transport. -/
theorem delete_stub (s : HttpApiServer) (st : Nat) (T tok : String) (pid : Uuid) :
    delete s (okAuth tok) (constTransport st T) pid =
      ((if st = 200 then .ok ()
        else .error (ApiServerError.ApiError T)),
        [Event.auth AuthStep.logged_in,
          Event.send (authedReq s tok
            (PROJECT_ROUTE_V1 ++ "/" ++ pid.val) Method.DELETE)]) := by
  by_cases h : st = 200 <;>
    simp [delete, authenticated_request, authenticate, okAuth, authedReq,
      constTransport, h]

/-- Evaluation of `list_projects` against the constant stub transport. -/
theorem list_projects_stub (s : HttpApiServer) (dec : Decoders) (st : Nat)
    (T tok : String) :
    list_projects s (okAuth tok) (constTransport st T) dec =
      ((if st = 200 then
          match dec.projectList T with
          | some projects => .ok projects
          | none => .error (ApiServerError.HttpClientError "json decode failure")
        else .error (ApiServerError.ApiError T)),
        [Event.auth AuthStep.logged_in,
          Event.send (authedReq s tok PROJECT_ROUTE_V1 Method.GET)]) := by
  by_cases h : st = 200
  · rcases hd : dec.projectList T with _ | projects <;>
      simp [list_projects, authenticated_request, authenticate, okAuth, authedReq,
        constTransport, h, hd]
  · simp [list_projects, authenticated_request, authenticate, okAuth, authedReq,
      constTransport, h]

/-- Evaluation of `apikey_create` against the constant stub transport. -/
theorem apikey_create_stub (s : HttpApiServer) (dec : Decoders) (st : Nat)
    (T tok : String) :
    apikey_create s (okAuth tok) (constTransport st T) dec =
      ((if st = 200 then
          match dec.apiKeyData T with
          | some apikey => .ok apikey
          | none => .error (ApiServerError.HttpClientError "json decode failure")
        else if st = 400 then .error (ApiServerError.ApiError "API key already present!")
        else .error (ApiServerError.ApiError T)),
        [Event.auth AuthStep.logged_in,
          Event.send (authedReq s tok APIKEY_ROUTE_V1 Method.POST)]) := by
  by_cases h : st = 200
  · rcases hd : dec.apiKeyData T with _ | apikey <;>
      simp [apikey_create, authenticated_request, authenticate, okAuth, authedReq,
        constTransport, h, hd]
  · by_cases h4 : st = 400 <;>
      simp [apikey_create, authenticated_request, authenticate, okAuth, authedReq,
        constTransport, h, h4]

/-- Evaluation of `apikey_list` against the constant stub transport. -/
theorem apikey_list_stub (s : HttpApiServer) (dec : Decoders) (st : Nat)
    (T tok : String) :
    apikey_list s (okAuth tok) (constTransport st T) dec =
      ((if st = 200 then
          match dec.apiKeyData T with
          | some apikey => .ok apikey
          | none => .error (ApiServerError.HttpClientError "json decode failure")
        else if st = 204 then .error (ApiServerError.ApiError "No API key found!")
        else .error (ApiServerError.ApiError T)),
        [Event.auth AuthStep.logged_in,
          Event.send (authedReq s tok APIKEY_ROUTE_V1 Method.GET)]) := by
  by_cases h : st = 200
  · rcases hd : dec.apiKeyData T with _ | apikey <;>
      simp [apikey_list, authenticated_request, authenticate, okAuth, authedReq,
        constTransport, h, hd]
  · by_cases h4 : st = 204 <;>
      simp [apikey_list, authenticated_request, authenticate, okAuth, authedReq,
        constTransport, h, h4]

/-- Evaluation of `apikey_delete` against the constant stub transport. -/
theorem apikey_delete_stub (s : HttpApiServer) (st : Nat) (T tok : String) :
    apikey_delete s (okAuth tok) (constTransport st T) =
      ((if st = 200 then .ok ()
        else .error (ApiServerError.ApiError T)),
        [Event.auth AuthStep.logged_in,
          Event.send (authedReq s tok APIKEY_ROUTE_V1 Method.DELETE)]) := by
  by_cases h : st = 200 <;>
    simp [apikey_delete, authenticated_request, authenticate, okAuth, authedReq,
      constTransport, h]

end Cosmo

namespace Cosmo

/-- C1: the three resolution steps of `authenticate` run in strict order,
each at most once, returning on first success: a successful `logged_in`
returns its session with neither refresh nor login invoked; on its
failure refresh is attempted before login; only when refresh also fails
are stdin credentials read and `login`'s result (ok or error) returned.
The trace is always a prefix of `[logged_in, refresh, login]`, so no step
repeats and the order is fixed. -/
theorem authenticate_resolution_order (env : AuthEnv) :
    ((authenticate env).2 = [AuthStep.logged_in] ∨
      (authenticate env).2 = [AuthStep.logged_in, AuthStep.refresh] ∨
      (authenticate env).2 = [AuthStep.logged_in, AuthStep.refresh, AuthStep.login]) ∧
    (∀ a, env.logged_in = .ok a →
      authenticate env = (.ok a, [AuthStep.logged_in])) ∧
    (∀ e a, env.logged_in = .error e → env.refresh = .ok a →
      authenticate env = (.ok a, [AuthStep.logged_in, AuthStep.refresh])) ∧
    (∀ e f, env.logged_in = .error e → env.refresh = .error f →
      authenticate env =
        (env.login env.read_username_and_password_from_stdin.1
            env.read_username_and_password_from_stdin.2,
          [AuthStep.logged_in, AuthStep.refresh, AuthStep.login])) := by
  refine ⟨?_, ?_, ?_, ?_⟩
  · rcases h1 : env.logged_in with e | a
    · rcases h2 : env.refresh with f | b
      · exact Or.inr (Or.inr (by simp [authenticate, h1, h2]))
      · exact Or.inr (Or.inl (by simp [authenticate, h1, h2]))
    · exact Or.inl (by simp [authenticate, h1])
  · intro a ha
    simp [authenticate, ha]
  · intro e a he ha
    simp [authenticate, he, ha]
  · intro e f he hf
    simp [authenticate, he, hf]

/-- Witness for C1: a concrete environment whose cached-session check
fails and whose refresh succeeds resolves by refresh, through the theorem. -/
theorem authenticate_resolution_order_witness :
    authenticate
        { logged_in := .error ⟨"expired"⟩
          refresh := .ok ⟨"tok"⟩
          login := fun _ _ => .error ⟨"unused"⟩
          read_username_and_password_from_stdin := ("u", "p") } =
      (.ok ⟨"tok"⟩, [AuthStep.logged_in, AuthStep.refresh]) :=
  (authenticate_resolution_order _).2.2.1 ⟨"expired"⟩ ⟨"tok"⟩ rfl rfl

/-- C4: for every configuration and path the request builder composes the
URL exactly as protocol, "://", host, ":", port, path, where the protocol
is "https" exactly when the tls flag is true; nothing but the tls flag
selects it. -/
theorem request_url_exact (s : HttpApiServer) (path : String) (method : Method) :
    (request s path method).url =
      (if s.tls then "https" else "http") ++ "://" ++ s.host ++ ":" ++ s.port ++ path ∧
    get_protocol true = "https" ∧ get_protocol false = "http" := by
  refine ⟨?_, rfl, rfl⟩
  unfold request get_protocol
  cases s.tls <;> rfl

/-- Witness for C4 at a concrete configuration. -/
theorem request_url_exact_witness :
    (request ⟨"example.com", "8080", true⟩ "/api/v1/projects" Method.GET).url =
      "https://example.com:8080/api/v1/projects" :=
  (request_url_exact ⟨"example.com", "8080", true⟩ "/api/v1/projects" Method.GET).1

/-- C2: for every operation handler, only the status-200 branch produces
an Ok result (an Ok result forces status 200), and every non-200 status
produces an API error — including the two documented alternates, 204 on
API-key listing and 400 on API-key creation, whose API errors merely
carry domain-specific messages. Stated against the constant stub
transport returning status `st` and body `T`, with a resolved session. -/
theorem gateway_ok_iff_status_200 (s : HttpApiServer) (dec : Decoders)
    (tok T : String) (st : Nat) (pid : Uuid) (an fn : String)
    (bytes : List Nat) (p ft fsub nm : String) (descr : Option String) :
    (isOkResult (updates_check s (constTransport st T) dec).1 = true → st = 200) ∧
    (st ≠ 200 → isApiErrorResult (updates_check s (constTransport st T) dec).1 = true) ∧
    (createIsOk (create s (okAuth tok) (plainFile fn bytes) (constTransport st T)
        dec p ft fsub nm descr).1 = true → st = 200) ∧
    (st ≠ 200 → createIsApiError (create s (okAuth tok) (plainFile fn bytes)
        (constTransport st T) dec p ft fsub nm descr).1 = true) ∧
    (isOkResult (overview s (okAuth tok) (constTransport st T) dec pid).1 = true →
      st = 200) ∧
    (st ≠ 200 →
      isApiErrorResult (overview s (okAuth tok) (constTransport st T) dec pid).1 = true) ∧
    (isOkResult (analysis s (okAuth tok) (constTransport st T) dec pid an).1 = true →
      st = 200) ∧
    (st ≠ 200 →
      isApiErrorResult (analysis s (okAuth tok) (constTransport st T) dec pid an).1 = true) ∧
    (isOkResult (delete s (okAuth tok) (constTransport st T) pid).1 = true → st = 200) ∧
    (st ≠ 200 →
      isApiErrorResult (delete s (okAuth tok) (constTransport st T) pid).1 = true) ∧
    (isOkResult (list_projects s (okAuth tok) (constTransport st T) dec).1 = true →
      st = 200) ∧
    (st ≠ 200 →
      isApiErrorResult (list_projects s (okAuth tok) (constTransport st T) dec).1 = true) ∧
    (isOkResult (apikey_create s (okAuth tok) (constTransport st T) dec).1 = true →
      st = 200) ∧
    (st ≠ 200 →
      isApiErrorResult (apikey_create s (okAuth tok) (constTransport st T) dec).1 = true) ∧
    (isOkResult (apikey_list s (okAuth tok) (constTransport st T) dec).1 = true →
      st = 200) ∧
    (st ≠ 200 →
      isApiErrorResult (apikey_list s (okAuth tok) (constTransport st T) dec).1 = true) ∧
    (isOkResult (apikey_delete s (okAuth tok) (constTransport st T)).1 = true → st = 200) ∧
    (st ≠ 200 →
      isApiErrorResult (apikey_delete s (okAuth tok) (constTransport st T)).1 = true) := by
  refine ⟨?_, ?_, ?_, ?_, ?_, ?_, ?_, ?_, ?_, ?_, ?_, ?_, ?_, ?_, ?_, ?_, ?_, ?_⟩
  · intro hok
    by_contra hne
    simp [updates_check_stub, hne, isOkResult] at hok
  · intro hne
    simp [updates_check_stub, hne, isApiErrorResult]
  · intro hok
    by_contra hne
    simp [create_stub, hne, createIsOk] at hok
  · intro hne
    simp [create_stub, hne, createIsApiError]
  · intro hok
    by_contra hne
    simp [overview_stub, hne, isOkResult] at hok
  · intro hne
    simp [overview_stub, hne, isApiErrorResult]
  · intro hok
    by_contra hne
    simp [analysis_stub, hne, isOkResult] at hok
  · intro hne
    simp [analysis_stub, hne, isApiErrorResult]
  · intro hok
    by_contra hne
    simp [delete_stub, hne, isOkResult] at hok
  · intro hne
    simp [delete_stub, hne, isApiErrorResult]
  · intro hok
    by_contra hne
    simp [list_projects_stub, hne, isOkResult] at hok
  · intro hne
    simp [list_projects_stub, hne, isApiErrorResult]
  · intro hok
    by_contra hne
    by_cases h4 : st = 400 <;>
      simp [apikey_create_stub, hne, h4, isOkResult] at hok
  · intro hne
    by_cases h4 : st = 400 <;>
      simp [apikey_create_stub, hne, h4, isApiErrorResult]
  · intro hok
    by_contra hne
    by_cases h4 : st = 204 <;>
      simp [apikey_list_stub, hne, h4, isOkResult] at hok
  · intro hne
    by_cases h4 : st = 204 <;>
      simp [apikey_list_stub, hne, h4, isApiErrorResult]
  · intro hok
    by_contra hne
    simp [apikey_delete_stub, hne, isOkResult] at hok
  · intro hne
    simp [apikey_delete_stub, hne, isApiErrorResult]

/-- Witness for C2: at status 500 every handler's result is an API error,
and at status 200 with always-succeeding decoders the Ok premise of the
forward direction is realized for the updates check. -/
theorem gateway_ok_iff_status_200_witness :
    isApiErrorResult (updates_check sampleServer (constTransport 500 "boom")
        okDecoders).1 = true ∧
    createIsApiError (create sampleServer (okAuth "tok") (plainFile "fw.bin" [0, 1])
        (constTransport 500 "boom") okDecoders "/d/fw.bin" "linux" "generic" "prj"
        none).1 = true ∧
    isApiErrorResult (overview sampleServer (okAuth "tok") (constTransport 500 "boom")
        okDecoders ⟨"42"⟩).1 = true ∧
    isApiErrorResult (analysis sampleServer (okAuth "tok") (constTransport 500 "boom")
        okDecoders ⟨"42"⟩ "cve").1 = true ∧
    isApiErrorResult (delete sampleServer (okAuth "tok") (constTransport 500 "boom")
        ⟨"42"⟩).1 = true ∧
    isApiErrorResult (list_projects sampleServer (okAuth "tok")
        (constTransport 500 "boom") okDecoders).1 = true ∧
    isApiErrorResult (apikey_create sampleServer (okAuth "tok")
        (constTransport 500 "boom") okDecoders).1 = true ∧
    isApiErrorResult (apikey_list sampleServer (okAuth "tok")
        (constTransport 500 "boom") okDecoders).1 = true ∧
    isApiErrorResult (apikey_delete sampleServer (okAuth "tok")
        (constTransport 500 "boom")).1 = true ∧
    (200 : Nat) = 200 := by
  have h := gateway_ok_iff_status_200 sampleServer okDecoders "tok" "boom" 500
    ⟨"42"⟩ "cve" "fw.bin" [0, 1] "/d/fw.bin" "linux" "generic" "prj" none
  have h200 := gateway_ok_iff_status_200 sampleServer okDecoders "tok" "ok" 200
    ⟨"42"⟩ "cve" "fw.bin" [0, 1] "/d/fw.bin" "linux" "generic" "prj" none
  exact ⟨h.2.1 (by decide), h.2.2.2.1 (by decide), h.2.2.2.2.2.1 (by decide),
    h.2.2.2.2.2.2.2.1 (by decide), h.2.2.2.2.2.2.2.2.2.1 (by decide),
    h.2.2.2.2.2.2.2.2.2.2.2.1 (by decide), h.2.2.2.2.2.2.2.2.2.2.2.2.2.1 (by decide),
    h.2.2.2.2.2.2.2.2.2.2.2.2.2.2.2.1 (by decide),
    h.2.2.2.2.2.2.2.2.2.2.2.2.2.2.2.2.2 (by decide),
    h200.1 (by simp [updates_check_stub, okDecoders, isOkResult])⟩

/-- C3: the claim says an existing, non-directory but unreadable upload
file yields a typed transport/client error and never a panic; the code
instead calls `.unwrap()` on the file read (http_server.rs line 132,
flagged by its own `TODO: unwrap?` comment), so an unreadable path
panics. Evaluated at a concrete failing input: a filesystem on which the
path exists, is a regular file with a UTF-8 name, and whose read fails
with a permission error. -/
theorem create_panics_on_unreadable_file :
    (create sampleServer (okAuth "tok")
        { path_exists := fun _ => true
          is_dir := fun _ => false
          file_name := fun _ => some "fw.bin"
          read_bytes_from_file := fun _ => .error "Permission denied" }
        (constTransport 200 "unused") okDecoders
        "/data/fw.bin" "linux" "generic" "proj" none).1 = CreateResult.panicked := rfl

/-- C5: every request carries the fixed user-agent header; every
operation except the version check first invokes the Authentication
Resolver (the `Event.auth` entry precedes its send) and sends a request
whose headers are exactly the user-agent plus an authorization header of
the exact form "Bearer " followed by the token; the version check sends
the base request, with no resolver invocation and no authorization
header. -/
theorem request_headers_and_auth_gating (s : HttpApiServer) (dec : Decoders)
    (tok T : String) (st : Nat) (pid : Uuid) (an fn : String)
    (bytes : List Nat) (p ft fsub nm : String) (descr : Option String) :
    (∀ path m, (request s path m).headers = [("user-agent", CLI_USER_AGENT)]) ∧
    (∀ path m, (authedReq s tok path m).headers =
      [("user-agent", CLI_USER_AGENT), ("authorization", "Bearer " ++ tok)]) ∧
    (updates_check s (constTransport st T) dec).2 =
      [Event.send (request s UPDATES_ROUTE Method.GET)] ∧
    (create s (okAuth tok) (plainFile fn bytes) (constTransport st T) dec
        p ft fsub nm descr).2 =
      [Event.auth AuthStep.logged_in,
        Event.send { authedReq s tok PROJECT_ROUTE_V1 Method.POST with
          form := some
            { parts :=
                [FormPart.text "name" nm, FormPart.text "type" ft,
                  FormPart.text "subtype" fsub,
                  FormPart.file "file" { bytes := bytes, file_name := fn }] ++
                (match descr with
                  | some d => [FormPart.text "description" d]
                  | none => []) } }] ∧
    (overview s (okAuth tok) (constTransport st T) dec pid).2 =
      [Event.auth AuthStep.logged_in,
        Event.send (authedReq s tok
          (PROJECT_ROUTE_V1 ++ "/" ++ pid.val ++ "/overview") Method.GET)] ∧
    (analysis s (okAuth tok) (constTransport st T) dec pid an).2 =
      [Event.auth AuthStep.logged_in,
        Event.send (authedReq s tok
          (PROJECT_ROUTE_V1 ++ "/" ++ pid.val ++ "/analysis/" ++ an) Method.GET)] ∧
    (delete s (okAuth tok) (constTransport st T) pid).2 =
      [Event.auth AuthStep.logged_in,
        Event.send (authedReq s tok (PROJECT_ROUTE_V1 ++ "/" ++ pid.val)
          Method.DELETE)] ∧
    (list_projects s (okAuth tok) (constTransport st T) dec).2 =
      [Event.auth AuthStep.logged_in,
        Event.send (authedReq s tok PROJECT_ROUTE_V1 Method.GET)] ∧
    (apikey_create s (okAuth tok) (constTransport st T) dec).2 =
      [Event.auth AuthStep.logged_in,
        Event.send (authedReq s tok APIKEY_ROUTE_V1 Method.POST)] ∧
    (apikey_list s (okAuth tok) (constTransport st T) dec).2 =
      [Event.auth AuthStep.logged_in,
        Event.send (authedReq s tok APIKEY_ROUTE_V1 Method.GET)] ∧
    (apikey_delete s (okAuth tok) (constTransport st T)).2 =
      [Event.auth AuthStep.logged_in,
        Event.send (authedReq s tok APIKEY_ROUTE_V1 Method.DELETE)] := by
  refine ⟨fun path m => rfl, fun path m => rfl, ?_, ?_, ?_, ?_, ?_, ?_, ?_, ?_, ?_⟩
  · rw [updates_check_stub]
  · rw [create_stub]
  · rw [overview_stub]
  · rw [analysis_stub]
  · rw [delete_stub]
  · rw [list_projects_stub]
  · rw [apikey_create_stub]
  · rw [apikey_list_stub]
  · rw [apikey_delete_stub]

/-- C6: for every operation, a response whose status is neither 200 nor
the operation's special-cased status (400 for API-key creation, 204 for
API-key listing) yields an API error whose message is exactly the
response body text, unmodified. -/
theorem gateway_error_body_verbatim (s : HttpApiServer) (dec : Decoders)
    (tok T : String) (st : Nat) (pid : Uuid) (an fn : String)
    (bytes : List Nat) (p ft fsub nm : String) (descr : Option String) :
    (st ≠ 200 → (updates_check s (constTransport st T) dec).1 =
      .error (ApiServerError.ApiError T)) ∧
    (st ≠ 200 → (create s (okAuth tok) (plainFile fn bytes) (constTransport st T)
        dec p ft fsub nm descr).1 =
      CreateResult.error (ApiServerError.ApiError T)) ∧
    (st ≠ 200 → (overview s (okAuth tok) (constTransport st T) dec pid).1 =
      .error (ApiServerError.ApiError T)) ∧
    (st ≠ 200 → (analysis s (okAuth tok) (constTransport st T) dec pid an).1 =
      .error (ApiServerError.ApiError T)) ∧
    (st ≠ 200 → (delete s (okAuth tok) (constTransport st T) pid).1 =
      .error (ApiServerError.ApiError T)) ∧
    (st ≠ 200 → (list_projects s (okAuth tok) (constTransport st T) dec).1 =
      .error (ApiServerError.ApiError T)) ∧
    (st ≠ 200 → st ≠ 400 → (apikey_create s (okAuth tok) (constTransport st T) dec).1 =
      .error (ApiServerError.ApiError T)) ∧
    (st ≠ 200 → st ≠ 204 → (apikey_list s (okAuth tok) (constTransport st T) dec).1 =
      .error (ApiServerError.ApiError T)) ∧
    (st ≠ 200 → (apikey_delete s (okAuth tok) (constTransport st T)).1 =
      .error (ApiServerError.ApiError T)) := by
  refine ⟨?_, ?_, ?_, ?_, ?_, ?_, ?_, ?_, ?_⟩
  · intro h
    simp [updates_check_stub, h]
  · intro h
    simp [create_stub, h]
  · intro h
    simp [overview_stub, h]
  · intro h
    simp [analysis_stub, h]
  · intro h
    simp [delete_stub, h]
  · intro h
    simp [list_projects_stub, h]
  · intro h h4
    simp [apikey_create_stub, h, h4]
  · intro h h4
    simp [apikey_list_stub, h, h4]
  · intro h
    simp [apikey_delete_stub, h]

/-- Witness for C6: at status 418 and body "teapot" every operation's
API error message is exactly "teapot". -/
theorem gateway_error_body_verbatim_witness :
    (updates_check sampleServer (constTransport 418 "teapot") okDecoders).1 =
      .error (ApiServerError.ApiError "teapot") ∧
    (create sampleServer (okAuth "tok") (plainFile "fw.bin" [0, 1])
        (constTransport 418 "teapot") okDecoders "/d/fw.bin" "linux" "generic" "prj"
        none).1 = CreateResult.error (ApiServerError.ApiError "teapot") ∧
    (overview sampleServer (okAuth "tok") (constTransport 418 "teapot") okDecoders
        ⟨"42"⟩).1 = .error (ApiServerError.ApiError "teapot") ∧
    (analysis sampleServer (okAuth "tok") (constTransport 418 "teapot") okDecoders
        ⟨"42"⟩ "cve").1 = .error (ApiServerError.ApiError "teapot") ∧
    (delete sampleServer (okAuth "tok") (constTransport 418 "teapot") ⟨"42"⟩).1 =
      .error (ApiServerError.ApiError "teapot") ∧
    (list_projects sampleServer (okAuth "tok") (constTransport 418 "teapot")
        okDecoders).1 = .error (ApiServerError.ApiError "teapot") ∧
    (apikey_create sampleServer (okAuth "tok") (constTransport 418 "teapot")
        okDecoders).1 = .error (ApiServerError.ApiError "teapot") ∧
    (apikey_list sampleServer (okAuth "tok") (constTransport 418 "teapot")
        okDecoders).1 = .error (ApiServerError.ApiError "teapot") ∧
    (apikey_delete sampleServer (okAuth "tok") (constTransport 418 "teapot")).1 =
      .error (ApiServerError.ApiError "teapot") := by
  have h := gateway_error_body_verbatim sampleServer okDecoders "tok" "teapot" 418
    ⟨"42"⟩ "cve" "fw.bin" [0, 1] "/d/fw.bin" "linux" "generic" "prj" none
  exact ⟨h.1 (by decide), h.2.1 (by decide), h.2.2.1 (by decide),
    h.2.2.2.1 (by decide), h.2.2.2.2.1 (by decide), h.2.2.2.2.2.1 (by decide),
    h.2.2.2.2.2.2.1 (by decide) (by decide), h.2.2.2.2.2.2.2.1 (by decide) (by decide),
    h.2.2.2.2.2.2.2.2 (by decide)⟩

/-- C7: the documented alternate statuses carry fixed operation-specific
messages instead of the raw body: listing API keys on 204 yields exactly
"No API key found!", creating an API key on 400 yields exactly
"API key already present!", whatever the body text. -/
theorem apikey_fixed_alternate_status_messages (s : HttpApiServer) (dec : Decoders)
    (tok T : String) :
    (apikey_list s (okAuth tok) (constTransport 204 T) dec).1 =
      .error (ApiServerError.ApiError "No API key found!") ∧
    (apikey_create s (okAuth tok) (constTransport 400 T) dec).1 =
      .error (ApiServerError.ApiError "API key already present!") := by
  constructor
  · simp [apikey_list_stub]
  · simp [apikey_create_stub]

/-- C8: a create call whose path does not exist or is a directory returns
the transport/client error "File <path> not found" with an empty
observable trace: no resolver step and no transport invocation happens. -/
theorem create_rejects_missing_path (s : HttpApiServer) (auth : AuthEnv)
    (fs : FileSystem) (tr : TransportEnv) (dec : Decoders)
    (p ft fsub nm : String) (descr : Option String)
    (h : fs.path_exists p = false ∨ fs.is_dir p = true) :
    create s auth fs tr dec p ft fsub nm descr =
      (.error (ApiServerError.RequestError ("File " ++ p ++ " not found")), []) := by
  unfold create
  rcases h with h | h <;> simp [h]

/-- Witness for C8: a filesystem on which nothing exists rejects the
upload with the exact message and an empty trace. -/
theorem create_rejects_missing_path_witness :
    create sampleServer (okAuth "tok")
        { path_exists := fun _ => false
          is_dir := fun _ => false
          file_name := fun _ => none
          read_bytes_from_file := fun _ => .error "no such file" }
        (constTransport 200 "unused") okDecoders "/d/missing.bin" "linux" "generic"
        "prj" none =
      (.error (ApiServerError.RequestError "File /d/missing.bin not found"), []) :=
  create_rejects_missing_path sampleServer (okAuth "tok") _ _ okDecoders
    "/d/missing.bin" "linux" "generic" "prj" none (Or.inl rfl)

/-- C9: a create call that reaches the upload sends one request whose
multipart form holds exactly the text fields "name", "type", "subtype",
then the binary part named "file" whose filename is the path's final
component (the `file_name` the filesystem reports for the path), and the
text field "description" exactly when a description was supplied. -/
theorem create_multipart_form_exact (s : HttpApiServer) (fs : FileSystem)
    (dec : Decoders) (tok T fn : String) (st : Nat) (bytes : List Nat)
    (p ft fsub nm : String) (descr : Option String)
    (hex : fs.path_exists p = true) (hdir : fs.is_dir p = false)
    (hfn : fs.file_name p = some fn)
    (hbytes : fs.read_bytes_from_file p = .ok bytes) :
    (create s (okAuth tok) fs (constTransport st T) dec p ft fsub nm descr).2 =
      [Event.auth AuthStep.logged_in,
        Event.send { authedReq s tok PROJECT_ROUTE_V1 Method.POST with
          form := some
            { parts :=
                [FormPart.text "name" nm, FormPart.text "type" ft,
                  FormPart.text "subtype" fsub,
                  FormPart.file "file" { bytes := bytes, file_name := fn }] ++
                (match descr with
                  | some d => [FormPart.text "description" d]
                  | none => []) } }] := by
  unfold create
  by_cases h : st = 200
  · rcases hd : dec.projectIdDTO T with _ | dto <;>
      simp [hex, hdir, hfn, hbytes, authenticated_request, authenticate, okAuth,
        authedReq, constTransport, h, hd]
  · simp [hex, hdir, hfn, hbytes, authenticated_request, authenticate, okAuth,
      authedReq, constTransport, h]

/-- Witness for C9: a concrete readable file produces exactly the
four-part form, and the description field appears when supplied. -/
theorem create_multipart_form_exact_witness :
    (create sampleServer (okAuth "tok") (plainFile "fw.bin" [7, 7])
        (constTransport 200 "ok") okDecoders "/d/fw.bin" "linux" "generic" "prj"
        (some "my device")).2 =
      [Event.auth AuthStep.logged_in,
        Event.send { authedReq sampleServer "tok" PROJECT_ROUTE_V1 Method.POST with
          form := some
            { parts :=
                [FormPart.text "name" "prj", FormPart.text "type" "linux",
                  FormPart.text "subtype" "generic",
                  FormPart.file "file" { bytes := [7, 7], file_name := "fw.bin" },
                  FormPart.text "description" "my device"] } }] := by
  have h := create_multipart_form_exact sampleServer (plainFile "fw.bin" [7, 7])
    okDecoders "tok" "ok" "fw.bin" 200 [7, 7] "/d/fw.bin" "linux" "generic" "prj"
    (some "my device") rfl rfl rfl rfl
  simpa using h

/-- C10: a create call whose path exists and is not a directory but whose
final path component is absent or not valid UTF-8 returns the
transport/client error "Problem with image filename: <path>" with an
empty observable trace: no resolver step and no transport invocation. -/
theorem create_rejects_bad_filename (s : HttpApiServer) (auth : AuthEnv)
    (fs : FileSystem) (tr : TransportEnv) (dec : Decoders)
    (p ft fsub nm : String) (descr : Option String)
    (hex : fs.path_exists p = true) (hdir : fs.is_dir p = false)
    (hfn : fs.file_name p = none) :
    create s auth fs tr dec p ft fsub nm descr =
      (.error (ApiServerError.RequestError ("Problem with image filename: " ++ p)),
        []) := by
  unfold create
  simp [hex, hdir, hfn]

/-- Witness for C10: a path whose final component is not representable
rejects the upload with the exact message and an empty trace. -/
theorem create_rejects_bad_filename_witness :
    create sampleServer (okAuth "tok")
        { path_exists := fun _ => true
          is_dir := fun _ => false
          file_name := fun _ => none
          read_bytes_from_file := fun _ => .ok [0] }
        (constTransport 200 "unused") okDecoders "/d/.." "linux" "generic" "prj"
        none =
      (.error (ApiServerError.RequestError "Problem with image filename: /d/.."),
        []) :=
  create_rejects_bad_filename sampleServer (okAuth "tok") _ _ okDecoders
    "/d/.." "linux" "generic" "prj" none rfl rfl rfl

end Cosmo
